import Mathlib

/-!
# Verification of lab6.py (XML file handler with logging decorator)

Shallow embedding of `src/lab6.py`: an exception taxonomy
(`FileHandlerException` with `FileNotFound` and `FileCorruptedError`),
a logging decorator factory (`setup_logger`, `logged`, and the per-call
`wrapper`), and an `XMLHandler` class exposing `read_file`, `write_file`
and `append_to_file` over an XML file on disk.

Modelling choices:
* Python exceptions become the inductive `PyError`; raising becomes
  `Except PyError`.
* The on-disk file system is an association list from paths to file
  contents; a file's content is either a well-formed XML tree (what
  `xml.etree.ElementTree.parse` would return) or malformed data carrying
  the parse diagnostic the parser reports for it.  `ET.parse` and
  `ElementTree.write` are external library primitives and are modelled
  at this level of abstraction.
* Log emission is modelled as the list of records a wrapper hands to the
  shared logger; logger-handler configuration (`setup_logger`) is
  modelled separately, with Python's name resolution made explicit,
  because the source looks up `LOG_FILE` / `LOG_FORMAT` as module
  globals while they are bound only as class attributes of
  `FileCorruptedError`.
-/

namespace Lab6

/-- Python exception values that occur in lab6.py.  `fileNotFound` and
`fileCorrupted` are the two subclasses of `FileHandlerException`
(src lines 16-34); `parseError` is `xml.etree.ElementTree.ParseError`,
`ioError` is `IOError`/`OSError`, and `nameError` is a Python
`NameError` for an unbound name. -/
inductive PyError where
  | fileNotFound (path : String)
  | fileCorrupted (path : String) (original : String)
  | parseError (msg : String)
  | ioError (msg : String)
  | nameError (name : String)
  deriving DecidableEq, Repr

/-- `e.__class__.__name__` for each modelled exception. -/
def PyError.className : PyError → String
  | .fileNotFound _ => "FileNotFound"
  | .fileCorrupted _ _ => "FileCorruptedError"
  | .parseError _ => "ParseError"
  | .ioError _ => "OSError"
  | .nameError _ => "NameError"

/-- `str(e)` for each modelled exception; the two handler exceptions carry
the messages built in their constructors (src lines 22 and 34). -/
def PyError.message : PyError → String
  | .fileNotFound p => "Файл не знайдено за шляхом: " ++ p
  | .fileCorrupted p orig => "Проблема з файлом '" ++ p ++ "'. Оригінальна помилка: " ++ orig
  | .parseError m => m
  | .ioError m => m
  | .nameError n => "name '" ++ n ++ "' is not defined"

/-- `isinstance(e, FileHandlerException)`: true exactly for the two
subclasses of the handler exception taxonomy. -/
def isFileHandlerException : PyError → Bool
  | .fileNotFound _ => true
  | .fileCorrupted _ _ => true
  | _ => false

/-! ## Logging infrastructure (src lines 37-88) -/

inductive LogLevel where
  | info
  | error
  deriving DecidableEq, Repr

/-- One line handed to the shared logger. -/
structure LogRecord where
  level : LogLevel
  msg : String
  deriving DecidableEq, Repr

def LogRecord.isInfo (r : LogRecord) : Bool :=
  match r.level with
  | .info => true
  | .error => false

/-- A logging handler: `logging.StreamHandler()` or
`logging.FileHandler(path)` with an attached format string. -/
inductive SinkHandler where
  | stream
  | fileSink (path : String) (fmt : String)
  deriving DecidableEq, Repr

/-- The state of the process-wide logger `logging.getLogger('FileLogger')`. -/
structure Logger where
  level : Nat
  handlers : List SinkHandler
  deriving DecidableEq, Repr

def loggingINFO : Nat := 20

/-- The string-valued bindings of the module's global namespace.
`LOG_FILE` and `LOG_FORMAT` are NOT among them: in the source they are
bound only as class attributes of `FileCorruptedError` (src lines 30-31),
and Python's free-name lookup inside a function body searches the global
and builtin namespaces, never an unrelated class namespace. -/
def moduleStringGlobals : List (String × String) := []

/-- The values the two class attributes of `FileCorruptedError` hold
(src lines 30-31); unreachable from `setup_logger`'s name lookup. -/
def FileCorruptedError.LOG_FILE : String := "file.operations.txt"

def FileCorruptedError.LOG_FORMAT : String :=
  "%(asctime)s - %(name)s - %(levelname)s - %(message)s"

/-- `setup_logger(mode)` (src lines 37-58), acting on the state of the
process-wide logger.  It sets the level, clears previously attached
handlers, and then evaluates
`handler = logging.FileHandler(LOG_FILE, mode='a', encoding='utf-8')`,
whose lookup of the free name `LOG_FILE` consults `moduleStringGlobals`.
The conditional `StreamHandler` assignment on the line before binds a
local that this unconditional assignment would rebind anyway. -/
def setup_logger (mode : String) (logger : Logger) : Logger × Except PyError Logger :=
  let logger := { logger with level := loggingINFO }
  let logger := if logger.handlers.isEmpty then logger else { logger with handlers := [] }
  let _consoleHandler : Option SinkHandler :=
    if mode == "console" then some SinkHandler.stream else none
  match moduleStringGlobals.lookup "LOG_FILE" with
  | none => (logger, .error (.nameError "LOG_FILE"))
  | some logFile =>
    match moduleStringGlobals.lookup "LOG_FORMAT" with
    | none => (logger, .error (.nameError "LOG_FORMAT"))
    | some fmt =>
      let handler := SinkHandler.fileSink logFile fmt
      let logger := { logger with handlers := logger.handlers ++ [handler] }
      (logger, .ok logger)

/-- `logged(exception_class, mode)` evaluated at decoration time
(src lines 61-69): it calls `setup_logger(mode)` before producing the
decorator, so decoration shares `setup_logger`'s outcome. -/
def logged (_exception_class : PyError → Bool) (mode : String) (logger : Logger) :
    Logger × Except PyError Unit :=
  let (logger₂, r) := setup_logger mode logger
  (logger₂, r.map fun _ => ())

/-- The success line `logger.info` emits (src line 76). -/
def successMsg (filePath methodName : String) : String :=
  "'" ++ filePath ++ "' - Метод " ++ methodName ++ " виконано."

/-- The failure line `logger.error` emits (src lines 79-82). -/
def errorMsg (filePath methodName : String) (e : PyError) : String :=
  "ПОМИЛКА: '" ++ filePath ++ "' - Метод " ++ methodName ++ " викликав " ++
    e.className ++ ": " ++ e.message

/-- The decorator's `wrapper` (src lines 73-84) around one call whose
outcome is `call`: on normal return it logs one info line and returns the
result unchanged; on an exception matched by `watched` (the decorator's
`exception_class`) it logs one error line and re-raises the same
exception; any other exception propagates with no log line. -/
def wrapper {α : Type} (watched : PyError → Bool) (methodName filePath : String)
    (call : Except PyError α) : Except PyError α × List LogRecord :=
  match call with
  | .ok r => (.ok r, [⟨.info, successMsg filePath methodName⟩])
  | .error e =>
    if watched e then
      (.error e, [⟨.error, errorMsg filePath methodName e⟩])
    else
      (.error e, [])

/-! ## XML data model and the file system -/

/-- An `xml.etree.ElementTree.Element`: tag, attribute mapping, optional
text content, ordered children. -/
structure Element where
  tag : String
  attrib : List (String × String)
  text : Option String
  children : List Element
  deriving Repr

/-- Content of a file on disk, at the abstraction level of the XML
library: either data that parses to a well-formed tree, or malformed
data carrying the diagnostic `ET.parse` reports for it. -/
inductive FileContent where
  | wellFormed (root : Element)
  | malformed (parseDiagnostic : String)
  deriving Repr

/-- The file system: paths mapped to contents. -/
abbrev FS := List (String × FileContent)

/-- Replace (or create) the file at `p`. -/
def FS.setFile : FS → String → FileContent → FS
  | [], p, c => [(p, c)]
  | (q, d) :: rest, p, c =>
    if q == p then (p, c) :: rest else (q, d) :: FS.setFile rest p c

/-- Delete the file at `p` (an action of the environment, after
construction). -/
def FS.removeFile (fs : FS) (p : String) : FS :=
  fs.filter fun kv => !(kv.1 == p)

/-- `os.path.exists` (src line 100). -/
def pathExists (fs : FS) (p : String) : Bool :=
  (fs.lookup p).isSome

/-- The `IOError` message for opening a missing file. -/
def ioMissingMsg (p : String) : String :=
  "No such file or directory: '" ++ p ++ "'"

/-- `ET.parse(path)` : open and parse the file.  A missing file raises an
`IOError`; malformed content raises `ParseError` with its diagnostic;
well-formed content yields the root element. -/
def ET_parse (fs : FS) (p : String) : Except PyError Element :=
  match fs.lookup p with
  | none => .error (.ioError (ioMissingMsg p))
  | some (.wellFormed root) => .ok root
  | some (.malformed m) => .error (.parseError m)

/-- `ET.ElementTree(root).write(path, encoding="utf-8",
xml_declaration=True)` (src lines 128-129): serializing a tree and
rewriting the file stores exactly that tree's structure; re-parsing the
written file recovers it.  Local-disk write is modelled as succeeding, so
the `IOError` branch of `write_file` (src lines 131-132) is unreachable
in the model. -/
def ET_write (fs : FS) (p : String) (root : Element) : FS :=
  FS.setFile fs p (.wellFormed root)

/-! ## XMLHandler (src lines 91-148) -/

structure XMLHandler where
  file_path : String
  deriving DecidableEq, Repr

/-- `XMLHandler.__init__` (src lines 92-103): stores the path; raises
`FileNotFound` when no file exists at the path; touches no file
content. -/
def XMLHandler.init (fs : FS) (file_path : String) : Except PyError XMLHandler :=
  if pathExists fs file_path then .ok ⟨file_path⟩
  else .error (.fileNotFound file_path)

/-- Body of `read_file` (src lines 106-119): parse the file; turn
`ParseError` and `IOError` into `FileCorruptedError` wrapping the
original diagnostic. -/
def XMLHandler.read_file_body (h : XMLHandler) (fs : FS) : Except PyError Element :=
  match ET_parse fs h.file_path with
  | .ok root => .ok root
  | .error (.parseError m) =>
    .error (.fileCorrupted h.file_path ("Некоректний XML: " ++ m))
  | .error (.ioError m) =>
    .error (.fileCorrupted h.file_path ("Помилка доступу/читання: " ++ m))
  | .error e => .error e

/-- `read_file` as decorated by `@logged(FileHandlerException, 'console')`
(src line 105): the body wrapped by the logging `wrapper`. -/
def XMLHandler.read_file (h : XMLHandler) (fs : FS) :
    Except PyError Element × List LogRecord :=
  wrapper isFileHandlerException "read_file" h.file_path (h.read_file_body fs)

/-- Body of `write_file` (src lines 122-132): serialize `root_element`
as the complete new content of the file. -/
def XMLHandler.write_file_body (h : XMLHandler) (fs : FS) (root_element : Element) :
    Except PyError FS :=
  .ok (ET_write fs h.file_path root_element)

/-- `write_file` as decorated by `@logged(FileHandlerException, "file")`
(src line 121). -/
def XMLHandler.write_file (h : XMLHandler) (fs : FS) (root_element : Element) :
    Except PyError FS × List LogRecord :=
  wrapper isFileHandlerException "write_file" h.file_path
    (h.write_file_body fs root_element)

/-- Body of `append_to_file` (src lines 135-148): default the attribute
mapping, `read_file` the current document (through its own decorated
form, so its log line is emitted too), build the new element, append it
as last child of the root, and `write_file` the modified root back. -/
def XMLHandler.append_to_file_body (h : XMLHandler) (fs : FS) (new_element_tag : String)
    (attributes : Option (List (String × String))) (text_content : Option String) :
    Except PyError FS × List LogRecord :=
  let attrs := attributes.getD []
  match h.read_file fs with
  | (.error e, logs) => (.error e, logs)
  | (.ok root, logs) =>
    let new_element : Element := ⟨new_element_tag, attrs, text_content, []⟩
    let root₂ : Element := { root with children := root.children ++ [new_element] }
    let (res, logs₂) := h.write_file fs root₂
    (res, logs ++ logs₂)

/-- `append_to_file` as decorated by `@logged(FileHandlerException, "file")`
(src line 134): the composite body wrapped by the logging `wrapper`,
whose own line is emitted after the inner calls' lines. -/
def XMLHandler.append_to_file (h : XMLHandler) (fs : FS) (new_element_tag : String)
    (attributes : Option (List (String × String))) (text_content : Option String) :
    Except PyError FS × List LogRecord :=
  let (res, innerLogs) := h.append_to_file_body fs new_element_tag attributes text_content
  let (res₂, wrapLogs) := wrapper isFileHandlerException "append_to_file" h.file_path res
  (res₂, innerLogs ++ wrapLogs)

/-- The root with one new element appended as last child, as
`append_to_file` builds it (src lines 142-146). -/
def appendedRoot (root : Element) (tag : String) (attrs : List (String × String))
    (text : Option String) : Element :=
  { root with children := root.children ++ [Element.mk tag attrs text []] }

/-- Number of success (info-level) lines in an emitted log. -/
def successLineCount (logs : List LogRecord) : Nat :=
  (logs.filter LogRecord.isInfo).length

/-! ## Structural equivalence of trees (spec section 8: same tag names,
attributes, text and children count at every node) -/

mutual

def structEquiv : Element → Element → Bool
  | Element.mk t₁ a₁ x₁ c₁, Element.mk t₂ a₂ x₂ c₂ =>
    t₁ == t₂ && a₁ == a₂ && x₁ == x₂ && structEquivChildren c₁ c₂

def structEquivChildren : List Element → List Element → Bool
  | [], [] => true
  | e₁ :: r₁, e₂ :: r₂ => structEquiv e₁ e₂ && structEquivChildren r₁ r₂
  | _, _ => false

end

/-! ## Concrete fixtures (from the demo block, src lines 151-179) -/

/-- The root of `<settings><param name="version">1.0</param></settings>`. -/
def settingsRoot : Element :=
  ⟨"settings", [], some "\n    ", [⟨"param", [("name", "version")], some "1.0", []⟩]⟩

def configFS : FS := [("config.xml", .wellFormed settingsRoot)]

def configHandler : XMLHandler := ⟨"config.xml"⟩

/-- `bad.txt` holds `This is not valid XML data <tag_without_closing_tag`,
which fails to parse. -/
def badFS : FS := [("bad.txt", .malformed "syntax error: line 1, column 27")]

def badHandler : XMLHandler := ⟨"bad.txt"⟩

/-! ## Helper lemmas -/

theorem lookup_setFile_self (fs : FS) (p : String) (c : FileContent) :
    (FS.setFile fs p c).lookup p = some c := by
  induction fs with
  | nil => simp [FS.setFile, List.lookup]
  | cons kv rest ih =>
    obtain ⟨q, d⟩ := kv
    by_cases hqp : q = p
    · subst hqp
      simp [FS.setFile, List.lookup]
    · simp only [FS.setFile, beq_iff_eq, hqp, if_false, List.lookup]
      have : (p == q) = false := by simp [Ne.symm hqp]
      rw [this]
      exact ih

theorem lookup_removeFile_self (fs : FS) (p : String) :
    (FS.removeFile fs p).lookup p = none := by
  induction fs with
  | nil => rfl
  | cons kv rest ih =>
    obtain ⟨q, d⟩ := kv
    by_cases hqp : q = p
    · subst hqp
      simpa [FS.removeFile, List.filter] using ih
    · have hqp' : (q == p) = false := by simp [hqp]
      have hpq : (p == q) = false := by simp [Ne.symm hqp]
      simp only [FS.removeFile, List.filter, hqp', Bool.not_false, List.lookup, hpq]
      simpa [FS.removeFile] using ih

/-- The logger state immediately after any `setup_logger` call: level set
to INFO and all previously attached handlers cleared (and, because the
call then raises before attaching anything, nothing new attached). -/
theorem setup_logger_state (mode : String) (lg : Logger) :
    (setup_logger mode lg).1 = ⟨loggingINFO, []⟩ := by
  cases lg with
  | mk lv hs =>
    cases hs with
    | nil => rfl
    | cons a t => rfl

mutual

theorem structEquiv_refl : (e : Element) → structEquiv e e = true
  | Element.mk t a x c => by
    simp only [structEquiv, beq_self_eq_true, Bool.true_and]
    exact structEquivChildren_refl c

theorem structEquivChildren_refl : (l : List Element) → structEquivChildren l l = true
  | [] => rfl
  | e :: r => by
    simp only [structEquivChildren, Bool.and_eq_true]
    exact ⟨structEquiv_refl e, structEquivChildren_refl r⟩

end

/-! ## The claims -/

/-- C2: for every wrapped method call, the logging wrapper logs exactly
once: on normal return it emits exactly one success line and returns the
result unchanged; if the call raises an instance of the watched error
kind it emits exactly one error line and re-raises the identical original
exception; an exception outside the watched kind propagates with no log
line from the wrapper. -/
theorem wrapper_logs_exactly_once {α : Type} (watched : PyError → Bool)
    (methodName filePath : String) (call : Except PyError α) :
    (∀ r : α, call = Except.ok r →
      wrapper watched methodName filePath call
        = (Except.ok r, [⟨LogLevel.info, successMsg filePath methodName⟩])) ∧
    (∀ e : PyError, call = Except.error e → watched e = true →
      wrapper watched methodName filePath call
        = (Except.error e, [⟨LogLevel.error, errorMsg filePath methodName e⟩])) ∧
    (∀ e : PyError, call = Except.error e → watched e = false →
      wrapper watched methodName filePath call = (Except.error e, [])) := by
  refine ⟨?_, ?_, ?_⟩
  · rintro r rfl
    simp [wrapper]
  · rintro e rfl hw
    simp [wrapper, hw]
  · rintro e rfl hw
    simp [wrapper, hw]

/-- Witness for C2 at concrete calls: a normal return, a watched
`FileCorruptedError`, and an unwatched `NameError`. -/
theorem wrapper_logs_exactly_once_witness :
    (wrapper isFileHandlerException "read_file" "config.xml" (Except.ok (0 : Nat))
      = (Except.ok 0, [⟨LogLevel.info, successMsg "config.xml" "read_file"⟩])) ∧
    (wrapper isFileHandlerException "read_file" "bad.txt"
        (Except.error (PyError.fileCorrupted "bad.txt" "x") : Except PyError Nat)
      = (Except.error (PyError.fileCorrupted "bad.txt" "x"),
         [⟨LogLevel.error, errorMsg "bad.txt" "read_file" (PyError.fileCorrupted "bad.txt" "x")⟩])) ∧
    (wrapper isFileHandlerException "read_file" "config.xml"
        (Except.error (PyError.nameError "LOG_FILE") : Except PyError Nat)
      = (Except.error (PyError.nameError "LOG_FILE"), [])) := by
  refine ⟨?_, ?_, ?_⟩
  · exact (wrapper_logs_exactly_once isFileHandlerException "read_file" "config.xml"
      (Except.ok 0)).1 0 rfl
  · exact (wrapper_logs_exactly_once isFileHandlerException "read_file" "bad.txt"
      (Except.error (PyError.fileCorrupted "bad.txt" "x"))).2.1 _ rfl rfl
  · exact (wrapper_logs_exactly_once isFileHandlerException "read_file" "config.xml"
      (Except.error (PyError.nameError "LOG_FILE"))).2.2 _ rfl rfl

/-- C3 (against the claim): selecting mode 'console' does not produce a
logger writing to the console stream — `setup_logger` clears the
previously attached handlers and then raises `NameError` on the unbound
`LOG_FILE` before attaching any sink.  (Moreover the `FileHandler`
assignment at src line 52 is unconditional, so even with the names bound,
console mode would receive the file handler, not the stream handler.) -/
theorem setup_logger_console_attaches_no_sink :
    setup_logger "console" ⟨0, [SinkHandler.stream]⟩
      = (⟨loggingINFO, []⟩, Except.error (PyError.nameError "LOG_FILE")) := rfl

/-- C4: for every mode, `setup_logger` raises `NameError` on the unbound
module-level name `LOG_FILE` (bound only as a class attribute of
`FileCorruptedError`), so it never returns a configured logger, and
applying the `logged` decorator — which calls `setup_logger` at
decoration time — fails for every mode as well. -/
theorem setup_logger_always_raises_nameError (mode : String) (lg : Logger) :
    (setup_logger mode lg).2 = Except.error (PyError.nameError "LOG_FILE") ∧
    (logged isFileHandlerException mode lg).2
      = Except.error (PyError.nameError "LOG_FILE") :=
  ⟨rfl, rfl⟩

/-- C10 (against the claim): every configuration call does clear the
previously attached destinations first, but then raises `NameError`
before attaching the new one, so after any number of configuration calls
ZERO destinations are attached — never exactly one. -/
theorem setup_logger_clears_but_attaches_nothing (mode : String) (lg : Logger) :
    (setup_logger mode lg).1.handlers = [] ∧
    (setup_logger mode lg).1.handlers.length = 0 ∧
    (setup_logger mode lg).2 = Except.error (PyError.nameError "LOG_FILE") := by
  have hstate : (setup_logger mode lg).1 = ⟨loggingINFO, []⟩ := setup_logger_state mode lg
  refine ⟨?_, ?_, rfl⟩
  · rw [hstate]
  · rw [hstate]
    rfl

/-- C1: appending an element to the document of a well-formed file
succeeds, the file afterwards holds the old root with child count
increased by exactly one, and the newly appended last child has exactly
the given tag, attribute mapping and text content. -/
theorem append_to_file_appends_one_child (fs : FS) (h : XMLHandler) (root : Element)
    (tag : String) (attrs : List (String × String)) (text : Option String)
    (hroot : fs.lookup h.file_path = some (FileContent.wellFormed root)) :
    (h.append_to_file fs tag (some attrs) text).1
      = Except.ok (ET_write fs h.file_path (appendedRoot root tag attrs text)) ∧
    (ET_write fs h.file_path (appendedRoot root tag attrs text)).lookup h.file_path
      = some (FileContent.wellFormed (appendedRoot root tag attrs text)) ∧
    (appendedRoot root tag attrs text).children.length = root.children.length + 1 ∧
    (appendedRoot root tag attrs text).children.getLast?
      = some (Element.mk tag attrs text []) := by
  refine ⟨?_, lookup_setFile_self fs h.file_path _, ?_, ?_⟩
  · simp [XMLHandler.append_to_file, XMLHandler.append_to_file_body,
      XMLHandler.read_file, XMLHandler.read_file_body, XMLHandler.write_file,
      XMLHandler.write_file_body, ET_parse, hroot, wrapper, ET_write, appendedRoot]
  · simp [appendedRoot]
  · simp [appendedRoot]

/-- Witness for C1 at the spec's example: appending `data_item` with
`id="1"` and text "New Value" to the one-child `<settings>` document. -/
theorem append_to_file_appends_one_child_witness :
    (configHandler.append_to_file configFS "data_item" (some [("id", "1")])
        (some "New Value")).1
      = Except.ok (ET_write configFS configHandler.file_path
          (appendedRoot settingsRoot "data_item" [("id", "1")] (some "New Value"))) ∧
    (ET_write configFS configHandler.file_path
        (appendedRoot settingsRoot "data_item" [("id", "1")] (some "New Value"))).lookup
        configHandler.file_path
      = some (FileContent.wellFormed
          (appendedRoot settingsRoot "data_item" [("id", "1")] (some "New Value"))) ∧
    (appendedRoot settingsRoot "data_item" [("id", "1")] (some "New Value")).children.length
      = settingsRoot.children.length + 1 ∧
    (appendedRoot settingsRoot "data_item" [("id", "1")] (some "New Value")).children.getLast?
      = some (Element.mk "data_item" [("id", "1")] (some "New Value") []) :=
  append_to_file_appends_one_child configFS configHandler settingsRoot
    "data_item" [("id", "1")] (some "New Value") rfl

/-- C5 (against the claim): at the spec's own example input, one
successful AppendElement call does NOT produce exactly two success log
lines (it produces three: read_file, write_file, append_to_file). -/
theorem append_success_two_lines_false :
    ¬ successLineCount (configHandler.append_to_file configFS "data_item"
        (some [("id", "1")]) (some "New Value")).2 = 2 := by
  decide

/-- C5 amended: one AppendElement call that succeeds produces exactly
THREE success log lines — one from the internal Read, one from the
internal Write, and one from the append wrapper itself. -/
theorem append_success_emits_three_lines (fs : FS) (h : XMLHandler) (root : Element)
    (tag : String) (attrs : Option (List (String × String))) (text : Option String)
    (hroot : fs.lookup h.file_path = some (FileContent.wellFormed root)) :
    (h.append_to_file fs tag attrs text).2
      = [⟨LogLevel.info, successMsg h.file_path "read_file"⟩,
         ⟨LogLevel.info, successMsg h.file_path "write_file"⟩,
         ⟨LogLevel.info, successMsg h.file_path "append_to_file"⟩] ∧
    successLineCount (h.append_to_file fs tag attrs text).2 = 3 := by
  have hlogs : (h.append_to_file fs tag attrs text).2
      = [⟨LogLevel.info, successMsg h.file_path "read_file"⟩,
         ⟨LogLevel.info, successMsg h.file_path "write_file"⟩,
         ⟨LogLevel.info, successMsg h.file_path "append_to_file"⟩] := by
    simp [XMLHandler.append_to_file, XMLHandler.append_to_file_body,
      XMLHandler.read_file, XMLHandler.read_file_body, XMLHandler.write_file,
      XMLHandler.write_file_body, ET_parse, hroot, wrapper]
  refine ⟨hlogs, ?_⟩
  rw [hlogs]
  rfl

/-- Witness for C5's amended statement at the spec's example input. -/
theorem append_success_emits_three_lines_witness :
    (configHandler.append_to_file configFS "data_item" (some [("id", "1")])
        (some "New Value")).2
      = [⟨LogLevel.info, successMsg "config.xml" "read_file"⟩,
         ⟨LogLevel.info, successMsg "config.xml" "write_file"⟩,
         ⟨LogLevel.info, successMsg "config.xml" "append_to_file"⟩] ∧
    successLineCount (configHandler.append_to_file configFS "data_item"
        (some [("id", "1")]) (some "New Value")).2 = 3 :=
  append_success_emits_three_lines configFS configHandler settingsRoot
    "data_item" (some [("id", "1")]) (some "New Value") rfl

/-- C6: constructing a handle on a path with no file fails with
`FileNotFound` and with no other error kind; on a path with a file it
succeeds storing the path; and the outcome depends only on whether the
path exists, never on the file's content (construction reads nothing). -/
theorem init_existence_check (fs fs₂ : FS) (p : String) :
    (fs.lookup p = none → XMLHandler.init fs p = Except.error (PyError.fileNotFound p)) ∧
    (∀ c : FileContent, fs.lookup p = some c → XMLHandler.init fs p = Except.ok ⟨p⟩) ∧
    (pathExists fs p = pathExists fs₂ p → XMLHandler.init fs p = XMLHandler.init fs₂ p) := by
  refine ⟨?_, ?_, ?_⟩
  · intro hnone
    simp [XMLHandler.init, pathExists, hnone]
  · intro c hc
    simp [XMLHandler.init, pathExists, hc]
  · intro heq
    unfold XMLHandler.init
    rw [heq]

/-- Witness for C6: a missing path fails with `FileNotFound`; an existing
path succeeds; two file systems holding the same path with different
contents give the same construction outcome. -/
theorem init_existence_check_witness :
    (XMLHandler.init [] "config.xml" = Except.error (PyError.fileNotFound "config.xml")) ∧
    (XMLHandler.init configFS "config.xml" = Except.ok ⟨"config.xml"⟩) ∧
    (XMLHandler.init configFS "config.xml"
      = XMLHandler.init [("config.xml", FileContent.malformed "m")] "config.xml") := by
  refine ⟨?_, ?_, ?_⟩
  · exact (init_existence_check [] [] "config.xml").1 rfl
  · exact (init_existence_check configFS [] "config.xml").2.1 _ rfl
  · exact (init_existence_check configFS
      [("config.xml", FileContent.malformed "m")] "config.xml").2.2 rfl

/-- C7: reading an existing file whose content is not well-formed XML
always fails with `FileCorruptedError` wrapping the parse diagnostic, and
never with `FileNotFound`. -/
theorem read_file_malformed_raises_corrupted (fs : FS) (h : XMLHandler) (m : String)
    (hm : fs.lookup h.file_path = some (FileContent.malformed m)) :
    (h.read_file fs).1
      = Except.error (PyError.fileCorrupted h.file_path ("Некоректний XML: " ++ m)) ∧
    (∀ q : String, (h.read_file fs).1 ≠ Except.error (PyError.fileNotFound q)) := by
  have h1 : (h.read_file fs).1
      = Except.error (PyError.fileCorrupted h.file_path ("Некоректний XML: " ++ m)) := by
    simp [XMLHandler.read_file, XMLHandler.read_file_body, ET_parse, hm, wrapper,
      isFileHandlerException]
  refine ⟨h1, fun q hq => ?_⟩
  rw [h1] at hq
  simp at hq

/-- Witness for C7 at the spec's example: a file holding
`This is not valid XML data <tag_without_closing_tag`. -/
theorem read_file_malformed_raises_corrupted_witness :
    (badHandler.read_file badFS).1
      = Except.error (PyError.fileCorrupted "bad.txt"
          ("Некоректний XML: " ++ "syntax error: line 1, column 27")) ∧
    (∀ q : String, (badHandler.read_file badFS).1
      ≠ Except.error (PyError.fileNotFound q)) :=
  read_file_malformed_raises_corrupted badFS badHandler
    "syntax error: line 1, column 27" rfl

/-- C8: round-trip — reading a well-formed document yields its root,
writing that root back succeeds, and reading again yields a tree
structurally equivalent (same tags, attributes, text and children at
every node) to the first read's result. -/
theorem read_write_read_roundtrip (fs : FS) (h : XMLHandler) (root : Element)
    (hroot : fs.lookup h.file_path = some (FileContent.wellFormed root)) :
    (h.read_file fs).1 = Except.ok root ∧
    (h.write_file fs root).1 = Except.ok (ET_write fs h.file_path root) ∧
    (h.read_file (ET_write fs h.file_path root)).1 = Except.ok root ∧
    structEquiv root root = true := by
  refine ⟨?_, ?_, ?_, structEquiv_refl root⟩
  · simp [XMLHandler.read_file, XMLHandler.read_file_body, ET_parse, hroot, wrapper]
  · simp [XMLHandler.write_file, XMLHandler.write_file_body, wrapper]
  · simp [XMLHandler.read_file, XMLHandler.read_file_body, ET_parse, ET_write,
      lookup_setFile_self, wrapper]

/-- Witness for C8 on the `<settings>` fixture document. -/
theorem read_write_read_roundtrip_witness :
    (configHandler.read_file configFS).1 = Except.ok settingsRoot ∧
    (configHandler.write_file configFS settingsRoot).1
      = Except.ok (ET_write configFS configHandler.file_path settingsRoot) ∧
    (configHandler.read_file (ET_write configFS configHandler.file_path settingsRoot)).1
      = Except.ok settingsRoot ∧
    structEquiv settingsRoot settingsRoot = true :=
  read_write_read_roundtrip configFS configHandler settingsRoot rfl

/-- C9: existence is checked only at construction — for every handle
constructed successfully, if the file is then deleted, a subsequent read
fails with `FileCorruptedError` wrapping the I/O error, never with
`FileNotFound`. -/
theorem read_after_delete_raises_corrupted (fs : FS) (p : String) (h : XMLHandler)
    (hinit : XMLHandler.init fs p = Except.ok h) :
    (h.read_file (FS.removeFile fs p)).1
      = Except.error (PyError.fileCorrupted p
          ("Помилка доступу/читання: " ++ ioMissingMsg p)) ∧
    (∀ q : String, (h.read_file (FS.removeFile fs p)).1
      ≠ Except.error (PyError.fileNotFound q)) := by
  have hp : h = ⟨p⟩ := by
    unfold XMLHandler.init at hinit
    split at hinit
    · exact (Except.ok.inj hinit).symm
    · exact Except.noConfusion hinit
  subst hp
  have h1 : (XMLHandler.read_file ⟨p⟩ (FS.removeFile fs p)).1
      = Except.error (PyError.fileCorrupted p
          ("Помилка доступу/читання: " ++ ioMissingMsg p)) := by
    simp [XMLHandler.read_file, XMLHandler.read_file_body, ET_parse,
      lookup_removeFile_self, wrapper, isFileHandlerException]
  refine ⟨h1, fun q hq => ?_⟩
  rw [h1] at hq
  simp at hq

/-- Witness for C9: the `config.xml` handle is constructed, the file is
deleted, and the read fails with `FileCorruptedError`. -/
theorem read_after_delete_raises_corrupted_witness :
    (configHandler.read_file (FS.removeFile configFS "config.xml")).1
      = Except.error (PyError.fileCorrupted "config.xml"
          ("Помилка доступу/читання: " ++ ioMissingMsg "config.xml")) ∧
    (∀ q : String, (configHandler.read_file (FS.removeFile configFS "config.xml")).1
      ≠ Except.error (PyError.fileNotFound q)) :=
  read_after_delete_raises_corrupted configFS "config.xml" configHandler rfl

end Lab6
